import Mathlib

/-!
# Verification of the claude-manager window/session orchestrator

This file gives a shallow embedding, in Lean 4, of the scenario-detection,
window-naming, window-allocation and scenario-orchestration logic of the
claude-manager repository (`claude_manager.py`, `modules/tmux_manager.py`,
`modules/scenario_detector.py`), and proves the frozen claims about it.

External tmux invocations are modelled in two ways:
* a *response environment*: each `subprocess.run` call site of a function is
  replaced by a parameter holding the result the external command returns,
  and the function additionally records the argv lists it would have issued
  (its trace), so that control-flow properties of a single function can be
  settled for every possible response;
* a *world model* (for the end-to-end scenario-1 claim): a small state
  machine for the tmux session/window/pane namespace, over which the same
  functions are interpreted so that the effect of a whole scenario run on the
  final session layout can be computed.
-/

/-! ## Scenario detection (`modules/scenario_detector.py`) -/

/-- Embeds `ScenarioDetector.detect_scenario`.  The two booleans are the two
probes the method performs: `inside_mux` is `_is_inside_tmux()` (presence of
the `TMUX_PANE` environment marker) and `session_exists` is
`tmux_manager.session_exists()`. -/
def detect_scenario (inside_mux session_exists : Bool) : String :=
  if !inside_mux then
    if session_exists then "outside_tmux_has_session"
    else "outside_tmux_no_session"
  else
    "inside_tmux"

/-! ## Window-name pattern (`is_claude_manager_window`,
`extract_project_from_window`)

The Python code matches window names against the anchored regular expression
`^cc-mngr-([a-zA-Z0-9_]+)(?:-\d+)?$`.  Because the character class contains
no hyphen, the regex (with Python's backtracking semantics) matches exactly
the strings of the form `cc-mngr-` ++ k or `cc-mngr-` ++ k ++ `-` ++ d with
`k` a non-empty run of word characters and `d` a non-empty run of digits,
and the captured group is always the maximal word-character run following
the header.  `ccMngrGroup` below computes that capture. -/

/-- The character class `[a-zA-Z0-9_]` of the window-name pattern. -/
def isWordChar (c : Char) : Bool :=
  ('a' ≤ c && c ≤ 'z') || ('A' ≤ c && c ≤ 'Z') || ('0' ≤ c && c ≤ '9') || c == '_'

/-- Strip an expected literal header from a character list; `none` when the
list does not start with the header (the regex `^cc-mngr-` part). -/
def dropHeader : List Char → List Char → Option (List Char)
  | [], s => some s
  | _ :: _, [] => none
  | p :: ps, c :: cs => if c = p then dropHeader ps cs else none

/-- The full match of `^cc-mngr-([a-zA-Z0-9_]+)(?:-\d+)?$` against a
character list, returning the captured group (the project key) on success. -/
def ccMngrGroup (s : List Char) : Option (List Char) :=
  match dropHeader "cc-mngr-".data s with
  | none => none
  | some rest =>
    let k := rest.takeWhile isWordChar
    let r := rest.dropWhile isWordChar
    if k.isEmpty then none
    else
      match r with
      | [] => some k
      | '-' :: ds => if !ds.isEmpty && ds.all Char.isDigit then some k else none
      | _ :: _ => none

/-- Embeds `ScenarioDetector.is_claude_manager_window`.  The argument is the
window name after the default current-window lookup has been resolved
(`none` when no name could be obtained); Python's `if not window_name`
guard covers both `None` and the empty string. -/
def is_claude_manager_window (window_name : Option String) : Bool :=
  match window_name with
  | none => false
  | some s => if s = "" then false else (ccMngrGroup s.data).isSome

/-- Embeds `ScenarioDetector.extract_project_from_window`: guard against a
missing/empty name, check `is_claude_manager_window`, then re-match the
pattern and return the captured group. -/
def extract_project_from_window (window_name : Option String) : Option String :=
  match window_name with
  | none => none
  | some s =>
    if s = "" then none
    else if !(is_claude_manager_window (some s)) then none
    else
      match ccMngrGroup s.data with
      | some k => some (String.mk k)
      | none => none

/-! ## Unique window naming (`TmuxManager.get_unique_window_name`)

The source's `while` loop increments a counter while `f"{base_name}-{counter}"`
is among the session's window names.  `nextFreeCounter` is that loop with an
explicit fuel argument; `nextFreeCounter_spec` and `exists_free_candidate`
below show that fuel `length + 1` is always enough, so the fuelled loop
computes exactly what the unbounded Python loop computes.  `digitsList` and
`parseDigits` are reference models of the decimal rendering used to prove
`Nat.repr` (Python's `str(counter)`) injective. -/

/-- Decimal digit characters of `n`, most significant first; reference model
for `Nat.repr`. -/
def digitsList (n : Nat) : List Char :=
  if _h : n < 10 then [Nat.digitChar n]
  else digitsList (n / 10) ++ [Nat.digitChar (n % 10)]
decreasing_by exact Nat.div_lt_self (by omega) (by omega)

/-- Reads a decimal digit-character list back to the number it denotes. -/
def parseDigits (l : List Char) : Nat :=
  l.foldl (fun a c => a * 10 + (c.toNat - 48)) 0

/-- The `while f"{base_name}-{counter}" in existing_names: counter += 1` loop
of `get_unique_window_name`, with fuel. -/
def nextFreeCounter (existing : List String) (base : String) : Nat → Nat → Nat
  | 0, c => c
  | f + 1, c =>
    if (base ++ "-" ++ Nat.repr c) ∈ existing then
      nextFreeCounter existing base f (c + 1)
    else c

/-- Embeds `TmuxManager.get_unique_window_name`.  `listWindows` is the result
of the `tmux list-windows` probe: `none` when the command failed (non-zero
exit code), otherwise the parsed list of current window names
(`result.stdout.strip().split('\n')`). -/
def get_unique_window_name (listWindows : Option (List String))
    (project_key : String) : String :=
  let base := "cc-mngr-" ++ project_key
  match listWindows with
  | none => base
  | some existing_names =>
    if base ∉ existing_names then base
    else
      base ++ "-" ++
        Nat.repr (nextFreeCounter existing_names base (existing_names.length + 1) 1)

/-! ## Response-environment layer (`modules/tmux_manager.py`)

Each embedded function takes `resp : TmuxResp`, the responses the external
`tmux` process would give to each argv it is invoked with, and returns its
result together with the list of argv invocations it issues (its trace).
Helper functions model the small pieces of Python string plumbing
(`.strip()`, `.split('\n')`, `str.isdigit`, substring tests) over character
lists so that everything evaluates inside the kernel. -/

/-- Result of one external command invocation (`subprocess.CompletedProcess`). -/
structure TmuxResult where
  returncode : Int
  stdout : String
  stderr : String

/-- An argv-style external command line. -/
abbrev Argv := List String

/-- The external multiplexer's response to each possible invocation. -/
abbrev TmuxResp := Argv → TmuxResult

/-- Python `str.strip()` whitespace class (space, `\t`, `\n`, `\v`, `\f`, `\r`). -/
def isSpaceChar (c : Char) : Bool :=
  c.toNat = 32 || (9 ≤ c.toNat && c.toNat ≤ 13)

/-- Python `str.strip()`. -/
def stripStr (s : String) : String :=
  String.mk (((s.data.dropWhile isSpaceChar).reverse.dropWhile isSpaceChar).reverse)

/-- Python `str.split('\n')` on a character list. -/
def splitOnNl : List Char → List (List Char)
  | [] => [[]]
  | c :: cs =>
    if c = '\n' then [] :: splitOnNl cs
    else
      match splitOnNl cs with
      | [] => [[c]]
      | l :: ls => (c :: l) :: ls

/-- `result.stdout.strip().split('\n')` as a list of strings. -/
def splitStdoutLines (stdout : String) : List String :=
  (splitOnNl (stripStr stdout).data).map String.mk

/-- `{int(idx) for idx in result.stdout.strip().split('\n') if idx.isdigit()}`:
the window indices parsed from a `list-windows` stdout. -/
def parseIndices (stdout : String) : List Nat :=
  ((splitOnNl (stripStr stdout).data).filter
    (fun l => !l.isEmpty && l.all Char.isDigit)).map parseDigits

/-- Does the character list start with the given pattern? -/
def charsStartWith : List Char → List Char → Bool
  | [], _ => true
  | _ :: _, [] => false
  | p :: ps, c :: cs => p == c && charsStartWith ps cs

/-- Does the character list contain the pattern as a contiguous run? -/
def charsContain : List Char → List Char → Bool
  | s, pat =>
    charsStartWith pat s ||
      match s with
      | [] => false
      | _ :: cs => charsContain cs pat

/-- Python's `pat in s` substring test. -/
def containsSubstr (s pat : String) : Bool :=
  charsContain s.data pat.data

/-- Characters of a target string before the first `:` (`target.split(':')[0]`). -/
def takeUntilColon : List Char → List Char
  | [] => []
  | c :: cs => if c = ':' then [] else c :: takeUntilColon cs

/-- Does the character list contain a `:` (`':' in window_target`)? -/
def hasColon : List Char → Bool
  | [] => false
  | c :: cs => c == ':' || hasColon cs

/-- `window_target.split(':')[0] if ':' in window_target else self.session_name`. -/
def sessionOfTarget (window_target self_session : String) : String :=
  if hasColon window_target.data then String.mk (takeUntilColon window_target.data)
  else self_session

/-! ### The argv lines the source constructs -/

/-- `tmux has-session -t session_target`. -/
def has_session_argv (session_target : String) : Argv :=
  ["tmux", "has-session", "-t", session_target]

/-- `tmux list-windows -t session_target -F #{window_index}`. -/
def list_windows_index_argv (session_target : String) : Argv :=
  ["tmux", "list-windows", "-t", session_target, "-F", "#{window_index}"]

/-- The `new-window` invocation of `_create_window_safe` (lines 107-111):
creation at an explicit index with `-P -F #{window_id}`, which prints the
created window's id atomically with the creation. -/
def new_window_argv (window_target window_name : String) : Argv :=
  ["tmux", "new-window", "-t", window_target, "-n", window_name,
   "-c", "/home/bpeeters/MEGA/manager", "-d", "-P", "-F", "#{window_id}"]

/-- `tmux display-message -t window_target -p #{window_name}`. -/
def display_name_argv (window_target : String) : Argv :=
  ["tmux", "display-message", "-t", window_target, "-p", "#{window_name}"]

/-- `tmux display-message -t window_target -p #{window_id}`. -/
def display_id_argv (window_target : String) : Argv :=
  ["tmux", "display-message", "-t", window_target, "-p", "#{window_id}"]

/-- The `move-window` invocation of the rightmost-move loops. -/
def move_window_argv (window_target session_name : String) (idx : Nat) : Argv :=
  ["tmux", "move-window", "-s", window_target, "-t",
   session_name ++ ":" ++ Nat.repr idx]

/-- `tmux list-panes -F #{pane_index}`. -/
def list_panes_argv : Argv :=
  ["tmux", "list-panes", "-F", "#{pane_index}"]

/-- `tmux kill-pane -t .pane_idx`. -/
def kill_pane_argv (pane_idx : String) : Argv :=
  ["tmux", "kill-pane", "-t", "." ++ pane_idx]

/-- The only keystrokes `clear_current_window` sends: a clear-screen command
to pane 0 (deliberately no `C-c`, see the comment at lines 553-556). -/
def send_clear_argv : Argv :=
  ["tmux", "send-keys", "-t", ".0", "clear", "Enter"]

/-- `tmux new-session -d -s session_name -c /home/bpeeters/MEGA/manager`
(the placeholder-window session creation of scenario 1). -/
def new_session_argv (session_name : String) : Argv :=
  ["tmux", "new-session", "-d", "-s", session_name,
   "-c", "/home/bpeeters/MEGA/manager"]

/-- The `new-window -a` invocation of `create_ccusage_window`. -/
def ccusage_window_argv (session_name ccusage_command : String) : Argv :=
  ["tmux", "new-window", "-a", "-t", session_name, "-n", "ccusage",
   "-c", "/home/bpeeters/MEGA/manager", "-d", ccusage_command]

/-- The `new-window -a` invocation of `create_log_window`; `log_command` is
the editor command line `f"{editor} {log_file}"`. -/
def log_window_argv (session_name log_command : String) : Argv :=
  ["tmux", "new-window", "-a", "-t", session_name, "-n", "mngr-log",
   "-c", "/home/bpeeters/MEGA/manager", "-d", log_command]

/-- `tmux split-window -h -t window_target -c /home/bpeeters/MEGA/manager`. -/
def split_h_argv (window_target : String) : Argv :=
  ["tmux", "split-window", "-h", "-t", window_target,
   "-c", "/home/bpeeters/MEGA/manager"]

/-- `tmux send-keys -t pane_target cmd Enter`. -/
def send_keys_argv (pane_target cmd : String) : Argv :=
  ["tmux", "send-keys", "-t", pane_target, cmd, "Enter"]

/-- `tmux select-pane -t pane_target`. -/
def select_pane_argv (pane_target : String) : Argv :=
  ["tmux", "select-pane", "-t", pane_target]

/-- `tmux kill-window -t session_name:0` (placeholder removal, scenario 1). -/
def kill_window_argv (session_name : String) : Argv :=
  ["tmux", "kill-window", "-t", session_name ++ ":0"]

/-- `tmux attach-session -t target`. -/
def attach_argv (target : String) : Argv :=
  ["tmux", "attach-session", "-t", target]

/-! ### Window allocator functions -/

/-- Embeds `TmuxManager.session_exists`. -/
def session_exists (resp : TmuxResp) (session_name : String) :
    Bool × List Argv :=
  ((resp (has_session_argv session_name)).returncode == 0,
   [has_session_argv session_name])

/-- The `while current_index in existing_indices: current_index += 1` loop of
`_find_next_available_index`, with fuel. -/
def nextFreeIndex (existing : List Nat) : Nat → Nat → Nat
  | 0, c => c
  | f + 1, c => if c ∈ existing then nextFreeIndex existing f (c + 1) else c

/-- The window indices `_find_next_available_index` works with: parsed from
the `list-windows` stdout, empty when the listing failed or was empty. -/
def listedIndices (resp : TmuxResp) (session_target : String) : List Nat :=
  let r := resp (list_windows_index_argv session_target)
  if r.returncode = 0 ∧ (stripStr r.stdout).data ≠ [] then parseIndices r.stdout
  else []

/-- Embeds `TmuxManager._find_next_available_index`: parse the current window
indices and scan upward from `start_index` for the first unused index. -/
def _find_next_available_index (resp : TmuxResp) (session_target : String)
    (start_index : Nat) : Nat × List Argv :=
  let existing := listedIndices resp session_target
  (nextFreeIndex existing (existing.foldr max 0 + 1) start_index,
   [list_windows_index_argv session_target])

/-- Embeds `TmuxManager._create_window_safe`: check the target session,
choose index 1 (`insert_left`) or the first free index from 1001, create the
window at that explicit index, then verify the created window's observed
name against the requested one; any failure yields `none`. -/
def _create_window_safe (resp : TmuxResp) (window_name : String)
    (session_target : Option String) (insert_left : Bool)
    (self_session : String) : Option String × List Argv :=
  let st := session_target.getD self_session
  let rcheck := resp (has_session_argv st)
  if rcheck.returncode ≠ 0 then (none, [has_session_argv st])
  else
    let p :=
      if insert_left then ((1 : Nat), ([] : List Argv))
      else _find_next_available_index resp st 1001
    let window_target := st ++ ":" ++ Nat.repr p.1
    let rcreate := resp (new_window_argv window_target window_name)
    if rcreate.returncode ≠ 0 then
      (none, has_session_argv st :: p.2 ++ [new_window_argv window_target window_name])
    else
      let rverify := resp (display_name_argv window_target)
      let trace := has_session_argv st :: p.2 ++
        [new_window_argv window_target window_name, display_name_argv window_target]
      if rverify.returncode ≠ 0 then (none, trace)
      else if stripStr rverify.stdout ≠ window_name then (none, trace)
      else (some window_target, trace)

/-- Embeds `TmuxManager._verify_window_ready`: poll `display-message` for the
window id up to `max_retries` times (the sleeps between attempts are dropped
from the model). -/
def _verify_window_ready (resp : TmuxResp) (window_target : String) :
    Nat → Bool × List Argv
  | 0 => (false, [])
  | n + 1 =>
    let r := resp (display_id_argv window_target)
    if r.returncode = 0 ∧ (stripStr r.stdout).data ≠ [] then
      (true, [display_id_argv window_target])
    else
      let p := _verify_window_ready resp window_target n
      (p.1, display_id_argv window_target :: p.2)

/-- The fixed candidate-index list of the rightmost-move loops
(`for target_index in [999, 1000, 1001, 1002, 1003]`). -/
def moveCandidates : List Nat := [999, 1000, 1001, 1002, 1003]

/-- The `for target_index in [999, ...]` loop shared by
`move_window_to_rightmost` and `move_window_to_rightmost_and_get_target`:
stop with the new target at the first successful move, keep scanning on an
`index in use` error, abort on any other error.  Also returns the list of
indices attempted. -/
def moveLoop (resp : TmuxResp) (window_target session_name : String) :
    List Nat → Option String × List Nat
  | [] => (none, [])
  | i :: rest =>
    let r := resp (move_window_argv window_target session_name i)
    if r.returncode = 0 then
      (some (session_name ++ ":" ++ Nat.repr i), [i])
    else if containsSubstr r.stderr "index in use" then
      let p := moveLoop resp window_target session_name rest
      (p.1, i :: p.2)
    else (none, [i])

/-- Embeds `TmuxManager.move_window_to_rightmost_and_get_target`. -/
def move_window_to_rightmost_and_get_target (resp : TmuxResp)
    (window_target self_session : String) : Option String × List Nat :=
  moveLoop resp window_target (sessionOfTarget window_target self_session)
    moveCandidates

/-- Embeds `TmuxManager.move_window_to_rightmost` (the same loop body
verbatim in the source, returning a boolean instead of the new target). -/
def move_window_to_rightmost (resp : TmuxResp)
    (window_target self_session : String) : Bool × List Nat :=
  let p := move_window_to_rightmost_and_get_target resp window_target self_session
  (p.1.isSome, p.2)

/-- Embeds `TmuxManager.clear_current_window`: list the panes (a failure
raises, modelled as `false`), kill every listed pane other than pane 0, and
send only a clear-screen command to pane 0. -/
def clear_current_window (resp : TmuxResp) : Bool × List Argv :=
  let r := resp list_panes_argv
  if r.returncode ≠ 0 then (false, [list_panes_argv])
  else
    let pane_indices := splitStdoutLines r.stdout
    let kills := (pane_indices.filter
      (fun p => !(p == "") && !(p == "0"))).map kill_pane_argv
    (true, list_panes_argv :: kills ++ [send_clear_argv])

/-- Embeds `TmuxManager.create_ccusage_window`. -/
def create_ccusage_window (resp : TmuxResp)
    (session_name ccusage_command : String) : Option String × List Argv :=
  let e := session_exists resp session_name
  if !e.1 then (none, e.2)
  else
    let r := resp (ccusage_window_argv session_name ccusage_command)
    if r.returncode ≠ 0 then
      (none, e.2 ++ [ccusage_window_argv session_name ccusage_command])
    else
      (some (session_name ++ ":ccusage"),
       e.2 ++ [ccusage_window_argv session_name ccusage_command])

/-- Embeds `TmuxManager.create_log_window` (the daily log file creation is
file-system plumbing outside the model; `log_command` is the editor command
the pane is started with). -/
def create_log_window (resp : TmuxResp)
    (session_name log_command : String) : Option String × List Argv :=
  let e := session_exists resp session_name
  if !e.1 then (none, e.2)
  else
    let r := resp (log_window_argv session_name log_command)
    if r.returncode ≠ 0 then
      (none, e.2 ++ [log_window_argv session_name log_command])
    else
      (some (session_name ++ ":mngr-log"),
       e.2 ++ [log_window_argv session_name log_command])

/-- Embeds `TmuxManager.setup_standard_project_layout`: one vertical split,
task-file command into pane 0, assistant command into pane 1, pane 1
selected (`task_command` and `claude_command` are the collaborator-built
command lines). -/
def setup_standard_project_layout (resp : TmuxResp) (window_target : String)
    (task_command claude_command : String) : Bool × List Argv :=
  let r := resp (split_h_argv window_target)
  if r.returncode ≠ 0 then (false, [split_h_argv window_target])
  else
    (true, [split_h_argv window_target,
      send_keys_argv (window_target ++ ".0") task_command,
      send_keys_argv (window_target ++ ".1") claude_command,
      select_pane_argv (window_target ++ ".1")])

/-- Embeds `TmuxManager.create_project_window`: session check, safe creation
of `cc-mngr-{project_key}` (right-append), move to a rightmost parking
index (falling back to the original target when the move fails), readiness
poll, then the two-pane layout. -/
def create_project_window (resp : TmuxResp) (project_key self_session : String)
    (task_command claude_command : String) : Option String × List Argv :=
  let e := session_exists resp self_session
  if !e.1 then (none, e.2)
  else
    let window_name := "cc-mngr-" ++ project_key
    let c := _create_window_safe resp window_name none false self_session
    match c.1 with
    | none => (none, e.2 ++ c.2)
    | some window_target =>
      let m := move_window_to_rightmost_and_get_target resp window_target self_session
      let target2 := m.1.getD window_target
      let mtrace := m.2.map
        (move_window_argv window_target (sessionOfTarget window_target self_session))
      let v := _verify_window_ready resp target2 5
      if !v.1 then (none, e.2 ++ c.2 ++ mtrace ++ v.2)
      else
        let l := setup_standard_project_layout resp target2 task_command claude_command
        if !l.1 then (none, e.2 ++ c.2 ++ mtrace ++ v.2 ++ l.2)
        else (some target2, e.2 ++ c.2 ++ mtrace ++ v.2 ++ l.2)

/-! ### Scenario orchestrator (`claude_manager.py`), tmux-touching part,
with project selection/validation already resolved to `project_key` -/

/-- Embeds the orchestration steps of `ClaudeManager.handle_scenario_1`:
create the session with a throwaway placeholder window, add the ccusage and
log windows (their failures are warnings only), create the project window
(a failure aborts), kill the placeholder window at index 0, attach focused
on the project window. -/
def handle_scenario_1 (resp : TmuxResp) (project_key session_name : String)
    (ccusage_command log_command task_command claude_command : String) :
    Option String × List Argv :=
  let r := resp (new_session_argv session_name)
  if r.returncode ≠ 0 then (none, [new_session_argv session_name])
  else
    let cc := create_ccusage_window resp session_name ccusage_command
    let lg := create_log_window resp session_name log_command
    let pr := create_project_window resp project_key session_name
      task_command claude_command
    match pr.1 with
    | none => (none, new_session_argv session_name :: (cc.2 ++ lg.2 ++ pr.2))
    | some t =>
      (some t, new_session_argv session_name :: (cc.2 ++ lg.2 ++ pr.2) ++
        [kill_window_argv session_name, attach_argv t])

/-- Embeds the orchestration steps of `ClaudeManager.handle_scenario_2`:
create the project window in the existing session (a failure aborts), then
attach focused on it. -/
def handle_scenario_2 (resp : TmuxResp) (project_key session_name : String)
    (task_command claude_command : String) : Option String × List Argv :=
  let pr := create_project_window resp project_key session_name
    task_command claude_command
  match pr.1 with
  | none => (none, pr.2)
  | some t => (some t, pr.2 ++ [attach_argv t])

/-- An "index in use" move failure, recognised by message content
(`"index in use" in e.stderr`), as opposed to any other failure. -/
def isIndexInUseError (r : TmuxResult) : Prop :=
  r.returncode ≠ 0 ∧ containsSubstr r.stderr "index in use" = true

instance (r : TmuxResult) : Decidable (isIndexInUseError r) :=
  inferInstanceAs (Decidable (_ ∧ _))

/-! ### Concrete response environments used to instantiate the theorems -/

/-- Responses for a fully successful window creation: three windows 0,1,2
listed, every command succeeds, and the name query reports `cc-mngr-p`. -/
def envCreateOk : TmuxResp := fun a =>
  match a with
  | "tmux" :: "list-windows" :: _ => ⟨0, "0\n1\n2", ""⟩
  | "tmux" :: "display-message" :: _ => ⟨0, "cc-mngr-p\n", ""⟩
  | _ => ⟨0, "", ""⟩

/-- Responses where the only listed windows are 0 and a parked window at
index 1002 (with 1001 free). -/
def envHighParked : TmuxResp := fun a =>
  match a with
  | "tmux" :: "list-windows" :: _ => ⟨0, "0\n1002", ""⟩
  | "tmux" :: "display-message" :: _ => ⟨0, "w\n", ""⟩
  | _ => ⟨0, "", ""⟩

/-- Responses where moving to 999, 1000 and 1001 fails with an
"index in use" error and moving to 1002 succeeds. -/
def envMoveThreeInUse : TmuxResp := fun a =>
  match a with
  | "tmux" :: "move-window" :: "-s" :: _ :: "-t" :: t :: _ =>
    if t = "mngr" ++ ":" ++ Nat.repr 1002 then ⟨0, "", ""⟩
    else ⟨1, "", "create window failed: index in use"⟩
  | _ => ⟨0, "", ""⟩

/-- Responses where every `new-window` invocation fails and everything else
succeeds (with an empty window listing). -/
def envNewWindowFails : TmuxResp := fun a =>
  match a with
  | "tmux" :: "new-window" :: _ => ⟨1, "", "boom"⟩
  | _ => ⟨0, "", ""⟩

/-- Responses for `clear_current_window` with panes 0, 1 and 2 listed. -/
def envThreePanes : TmuxResp := fun a =>
  match a with
  | "tmux" :: "list-panes" :: _ => ⟨0, "0\n1\n2\n", ""⟩
  | _ => ⟨0, "", ""⟩

/-! ## World model for the scenario-1 end-to-end run (C4)

A small state machine for the tmux session/window/pane namespace.  The same
source functions are interpreted over it (suffix `W`), with the command
responses computed from the live state instead of being given by an
environment, so that the effect of a whole scenario run on the final session
layout can be computed.  `list-windows`/`display-message` stdout parsing is
folded into the world operations; the `W` functions keep the source's
control flow (including the `.strip()` of the name-verification stdout). -/

/-- A tmux window: index, name, number of panes. -/
structure WWindow where
  index : Nat
  name : String
  panes : Nat
deriving DecidableEq

/-- The tmux server state: at most the one orchestrator session, holding its
name, the active window index, and its windows. -/
structure World where
  session : Option (String × Nat × List WWindow)
deriving DecidableEq

/-- The windows of the (single) session. -/
def World.windows (w : World) : List WWindow :=
  match w.session with
  | none => []
  | some (_, _, ws) => ws

/-- The automatic name tmux gives the throwaway placeholder window that
`new-session` creates (the user's shell). -/
def defaultShellWindowName : String := "bash"

/-- `tmux has-session -t name`. -/
def whas_session (w : World) (name : String) : Bool :=
  match w.session with
  | some (n, _, _) => n == name
  | none => false

/-- `tmux new-session -d -s name`: a fresh session whose window 0 is the
placeholder; fails when the session already exists. -/
def wnew_session (w : World) (name : String) : Option World :=
  match w.session with
  | some _ => none
  | none => some ⟨some (name, 0, [⟨0, defaultShellWindowName, 1⟩])⟩

/-- `tmux new-window -a -t sname -n wname -d cmd`: insert right after the
active window, shifting the subsequent windows up by one. -/
def wnew_window_after_active (w : World) (sname wname : String) : Option World :=
  match w.session with
  | some (n, act, ws) =>
    if n == sname then
      some ⟨some (n, act,
        ⟨act + 1, wname, 1⟩ ::
          ws.map (fun win =>
            if act < win.index then ⟨win.index + 1, win.name, win.panes⟩
            else win))⟩
    else none
  | none => none

/-- `tmux new-window -t sname:idx -n wname -d -P -F #{window_id}`: creation
at an explicit index, failing when that index is in use. -/
def wnew_window_at (w : World) (sname : String) (idx : Nat)
    (wname : String) : Option World :=
  match w.session with
  | some (n, act, ws) =>
    if n == sname then
      if ws.any (fun win => win.index == idx) then none
      else some ⟨some (n, act, ⟨idx, wname, 1⟩ :: ws)⟩
    else none
  | none => none

/-- Look a window up by index. -/
def wfind_window (w : World) (idx : Nat) : Option WWindow :=
  w.windows.find? (fun win => win.index == idx)

/-- `tmux display-message -t _:idx -p #{window_name}` (the raw name; the
embedded caller applies the source's `.strip()`). -/
def wdisplay_name (w : World) (idx : Nat) : Option String :=
  (wfind_window w idx).map (fun win => win.name)

/-- `tmux move-window -s _:src -t _:dst`: fails with an `index in use`
message when `dst` is occupied, with a different message otherwise. -/
def wmove_window (w : World) (src dst : Nat) : Except String World :=
  match w.session with
  | some (n, act, ws) =>
    if ws.any (fun win => win.index == dst) then
      Except.error "create window failed: index in use"
    else
      match ws.find? (fun win => win.index == src) with
      | some win =>
        Except.ok ⟨some (n, act,
          ⟨dst, win.name, win.panes⟩ ::
            ws.filter (fun x => !(x.index == src)))⟩
      | none => Except.error "cant find window"
  | none => Except.error "no server running"

/-- `tmux split-window -h -t _:idx`: one more pane in that window. -/
def wsplit_window (w : World) (idx : Nat) : Option World :=
  match w.session with
  | some (n, act, ws) =>
    if ws.any (fun win => win.index == idx) then
      some ⟨some (n, act, ws.map (fun win =>
        if win.index == idx then ⟨win.index, win.name, win.panes + 1⟩
        else win))⟩
    else none
  | none => none

/-- Insertion into a list of windows sorted by index. -/
def insertByIndex (win : WWindow) : List WWindow → List WWindow
  | [] => [win]
  | x :: xs =>
    if win.index ≤ x.index then win :: x :: xs else x :: insertByIndex win xs

/-- Sort windows by index. -/
def sortByIndex : List WWindow → List WWindow
  | [] => []
  | x :: xs => insertByIndex x (sortByIndex xs)

/-- The sequential renumbering tmux performs (`renumber-windows on`) after a
window is killed: remaining windows keep their order and get indices 0.. -/
def renumber (ws : List WWindow) : List WWindow :=
  (sortByIndex ws).enum.map (fun p => ⟨p.1, p.2.name, p.2.panes⟩)

/-- `tmux kill-window -t sname:idx`, followed by the renumbering. -/
def wkill_window (w : World) (sname : String) (idx : Nat) : Option World :=
  match w.session with
  | some (n, act, ws) =>
    if n == sname then
      if ws.any (fun win => win.index == idx) then
        some ⟨some (n, act, renumber (ws.filter (fun x => !(x.index == idx))))⟩
      else none
    else none
  | none => none

/-- Characters after the first `:` of a target string. -/
def afterColon : List Char → List Char
  | [] => []
  | c :: cs => if c = ':' then cs else afterColon cs

/-- The window index a `session:index` target string addresses. -/
def targetIndex (t : String) : Nat := parseDigits (afterColon t.data)

/-! ### The source functions interpreted over the world -/

/-- `TmuxManager.session_exists` over the world. -/
def session_existsW (w : World) (session_name : String) : Bool :=
  whas_session w session_name

/-- `TmuxManager._find_next_available_index` over the world (an unreachable
session yields an empty listing, hence an empty index set). -/
def _find_next_available_indexW (w : World) (session_target : String)
    (start_index : Nat) : Nat :=
  let existing :=
    if whas_session w session_target then w.windows.map (fun win => win.index)
    else []
  nextFreeIndex existing (existing.foldr max 0 + 1) start_index

/-- `TmuxManager._create_window_safe` over the world. -/
def _create_window_safeW (w : World) (window_name : String)
    (session_target : Option String) (insert_left : Bool)
    (self_session : String) : Option String × World :=
  let st := session_target.getD self_session
  if !(whas_session w st) then (none, w)
  else
    let target_index :=
      if insert_left then 1 else _find_next_available_indexW w st 1001
    let window_target := st ++ ":" ++ Nat.repr target_index
    match wnew_window_at w st target_index window_name with
    | none => (none, w)
    | some w2 =>
      match wdisplay_name w2 (targetIndex window_target) with
      | none => (none, w2)
      | some nm =>
        if stripStr nm ≠ window_name then (none, w2)
        else (some window_target, w2)

/-- `TmuxManager._verify_window_ready` over the world. -/
def _verify_window_readyW (w : World) (window_target : String) : Nat → Bool
  | 0 => false
  | n + 1 =>
    if (wfind_window w (targetIndex window_target)).isSome then true
    else _verify_window_readyW w window_target n

/-- The candidate loop of `move_window_to_rightmost_and_get_target` over the
world. -/
def moveLoopW (w : World) (window_target sname : String) :
    List Nat → Option String × World
  | [] => (none, w)
  | i :: rest =>
    match wmove_window w (targetIndex window_target) i with
    | Except.ok w2 => (some (sname ++ ":" ++ Nat.repr i), w2)
    | Except.error e =>
      if containsSubstr e "index in use" then moveLoopW w window_target sname rest
      else (none, w)

/-- `TmuxManager.move_window_to_rightmost_and_get_target` over the world. -/
def move_window_to_rightmost_and_get_targetW (w : World)
    (window_target self_session : String) : Option String × World :=
  moveLoopW w window_target (sessionOfTarget window_target self_session)
    moveCandidates

/-- `TmuxManager.setup_standard_project_layout` over the world: the split
changes the pane count; `send-keys` and `select-pane` leave the structural
state unchanged. -/
def setup_standard_project_layoutW (w : World) (window_target : String) :
    Bool × World :=
  match wsplit_window w (targetIndex window_target) with
  | none => (false, w)
  | some w2 => (true, w2)

/-- `TmuxManager.create_project_window` over the world. -/
def create_project_windowW (w : World) (project_key self_session : String) :
    Option String × World :=
  if !(session_existsW w self_session) then (none, w)
  else
    let window_name := "cc-mngr-" ++ project_key
    match _create_window_safeW w window_name none false self_session with
    | (none, w2) => (none, w2)
    | (some window_target, w2) =>
      let m := move_window_to_rightmost_and_get_targetW w2 window_target
        self_session
      let window_target2 := m.1.getD window_target
      if !(_verify_window_readyW m.2 window_target2 5) then (none, m.2)
      else
        let l := setup_standard_project_layoutW m.2 window_target2
        if !l.1 then (none, l.2) else (some window_target2, l.2)

/-- `TmuxManager.create_ccusage_window` over the world. -/
def create_ccusage_windowW (w : World) (session_name : String) :
    Option String × World :=
  if !(session_existsW w session_name) then (none, w)
  else
    match wnew_window_after_active w session_name "ccusage" with
    | none => (none, w)
    | some w2 => (some (session_name ++ ":ccusage"), w2)

/-- `TmuxManager.create_log_window` over the world. -/
def create_log_windowW (w : World) (session_name : String) :
    Option String × World :=
  if !(session_existsW w session_name) then (none, w)
  else
    match wnew_window_after_active w session_name "mngr-log" with
    | none => (none, w)
    | some w2 => (some (session_name ++ ":mngr-log"), w2)

/-- The orchestration steps of `ClaudeManager.handle_scenario_1` over the
world: new session (placeholder window), ccusage window, log window, project
window (abort on failure), kill the placeholder at index 0 (ignoring a
failure, as the source does not check that command), attach. -/
def handle_scenario_1W (w : World) (project_key session_name : String) :
    Option String × World :=
  match wnew_session w session_name with
  | none => (none, w)
  | some w1 =>
    let c := create_ccusage_windowW w1 session_name
    let l := create_log_windowW c.2 session_name
    let p := create_project_windowW l.2 project_key session_name
    match p.1 with
    | none => (none, p.2)
    | some t => (some t, (wkill_window p.2 session_name 0).getD p.2)

/-! ## Theorems -/

/-- C2: `detect_scenario` is a total pure function of the two booleans,
returning `outside_tmux_no_session` on `(false, false)`,
`outside_tmux_has_session` on `(false, true)`, `inside_tmux` on `(true, _)`,
and always exactly one of the three labels. -/
theorem detect_scenario_spec (i s : Bool) :
    detect_scenario false false = "outside_tmux_no_session" ∧
    detect_scenario false true = "outside_tmux_has_session" ∧
    detect_scenario true s = "inside_tmux" ∧
    (detect_scenario i s = "outside_tmux_no_session" ∨
     detect_scenario i s = "outside_tmux_has_session" ∨
     detect_scenario i s = "inside_tmux") := by
  cases i <;> cases s <;> simp [detect_scenario]

/-! ### Window-name pattern lemmas -/

theorem dropHeader_append (p s : List Char) : dropHeader p (p ++ s) = some s := by
  induction p with
  | nil => rfl
  | cons c cs ih => simpa [dropHeader] using ih

theorem takeWhile_append_of_all {P : Char → Bool} {k : List Char} (r : List Char)
    (hk : ∀ c ∈ k, P c = true) : (k ++ r).takeWhile P = k ++ r.takeWhile P := by
  induction k with
  | nil => simp
  | cons c cs ih =>
    have hc : P c = true := hk c (List.mem_cons_self c cs)
    simp only [List.cons_append, List.takeWhile_cons, hc, if_true]
    rw [ih (fun x hx => hk x (List.mem_cons_of_mem _ hx))]

theorem dropWhile_append_of_all {P : Char → Bool} {k : List Char} (r : List Char)
    (hk : ∀ c ∈ k, P c = true) : (k ++ r).dropWhile P = r.dropWhile P := by
  induction k with
  | nil => simp
  | cons c cs ih =>
    have hc : P c = true := hk c (List.mem_cons_self c cs)
    simp only [List.cons_append, List.dropWhile_cons, hc, if_true]
    exact ih (fun x hx => hk x (List.mem_cons_of_mem _ hx))

theorem ccMngrGroup_base (k : List Char) (hne : k ≠ [])
    (hw : ∀ c ∈ k, isWordChar c = true) :
    ccMngrGroup ("cc-mngr-".data ++ k) = some k := by
  obtain ⟨c, cs, rfl⟩ := List.exists_cons_of_ne_nil hne
  unfold ccMngrGroup
  rw [dropHeader_append]
  have ht : (c :: cs).takeWhile isWordChar = c :: cs := by
    have := takeWhile_append_of_all (k := c :: cs) [] hw
    simpa using this
  have hd : (c :: cs).dropWhile isWordChar = [] := by
    have := dropWhile_append_of_all (k := c :: cs) [] hw
    simpa using this
  simp [ht, hd]

theorem ccMngrGroup_suffix (k ds : List Char) (hne : k ≠ [])
    (hw : ∀ c ∈ k, isWordChar c = true) (hds : ds ≠ [])
    (hdig : ds.all Char.isDigit = true) :
    ccMngrGroup ("cc-mngr-".data ++ (k ++ '-' :: ds)) = some k := by
  unfold ccMngrGroup
  rw [dropHeader_append]
  have hminus : isWordChar '-' = false := by decide
  have ht : (k ++ '-' :: ds).takeWhile isWordChar = k := by
    rw [takeWhile_append_of_all _ hw]
    simp [List.takeWhile_cons, hminus]
  have hd : (k ++ '-' :: ds).dropWhile isWordChar = '-' :: ds := by
    rw [dropWhile_append_of_all _ hw]
    simp [List.dropWhile_cons, hminus]
  have hke : k.isEmpty = false := by
    cases k with
    | nil => exact absurd rfl hne
    | cons a as => rfl
  have hdse : ds.isEmpty = false := by
    cases ds with
    | nil => exact absurd rfl hds
    | cons a as => rfl
  simp [ht, hd, hke, hdse, hdig]

theorem ccMngrGroup_some {s k : List Char} (h : ccMngrGroup s = some k) :
    k ≠ [] ∧ ∀ c ∈ k, isWordChar c = true := by
  unfold ccMngrGroup at h
  cases hd : dropHeader "cc-mngr-".data s with
  | none => rw [hd] at h; cases h
  | some rest =>
    rw [hd] at h
    simp only at h
    split at h
    · cases h
    · rename_i hke
      have hmem : ∀ c ∈ rest.takeWhile isWordChar, isWordChar c = true :=
        fun c hc => List.mem_takeWhile_imp hc
      have hne : rest.takeWhile isWordChar ≠ [] := by
        intro hnil
        rw [hnil] at hke
        exact hke rfl
      split at h
      · cases h; exact ⟨hne, hmem⟩
      · split at h
        · cases h; exact ⟨hne, hmem⟩
        · cases h
      · cases h

theorem string_append_left_ne_empty {s t : String} (hs : s.data ≠ []) :
    s ++ t ≠ "" := by
  intro h
  have h2 := congrArg String.data h
  rw [String.data_append] at h2
  exact hs (List.append_eq_nil.mp h2).1

/-- C7: for any project key `k` of word characters, extraction round-trips on
`cc-mngr-k` and on `cc-mngr-k-7`, and rejects `random-window`. -/
theorem extract_project_round_trip (k : String) (hne : k.data ≠ [])
    (hw : ∀ c ∈ k.data, isWordChar c = true) :
    extract_project_from_window (some ("cc-mngr-" ++ k)) = some k ∧
    extract_project_from_window (some ("cc-mngr-" ++ k ++ "-7")) = some k ∧
    extract_project_from_window (some "random-window") = none := by
  have hgrp1 : ccMngrGroup ("cc-mngr-" ++ k).data = some k.data := by
    rw [String.data_append]
    exact ccMngrGroup_base k.data hne hw
  have hne1 : ("cc-mngr-" ++ k) ≠ "" :=
    string_append_left_ne_empty (by decide)
  have hdata2 : ("cc-mngr-" ++ k ++ "-7").data =
      "cc-mngr-".data ++ (k.data ++ '-' :: ['7']) := by
    rw [String.data_append, String.data_append, List.append_assoc]
  have hgrp2 : ccMngrGroup ("cc-mngr-" ++ k ++ "-7").data = some k.data := by
    rw [hdata2]
    exact ccMngrGroup_suffix k.data ['7'] hne hw (by simp) (by decide)
  have hne2 : ("cc-mngr-" ++ k ++ "-7") ≠ "" := by
    apply string_append_left_ne_empty
    rw [String.data_append]
    simp
  refine ⟨?_, ?_, by decide⟩
  · simp only [extract_project_from_window, is_claude_manager_window,
      if_neg hne1, hgrp1, Option.isSome_some, Bool.not_true, Bool.false_eq_true,
      if_false]
  · simp only [extract_project_from_window, is_claude_manager_window,
      if_neg hne2, hgrp2, Option.isSome_some, Bool.not_true, Bool.false_eq_true,
      if_false]

/-- Witness for C7 at the concrete key `foo`. -/
theorem extract_project_round_trip_witness :
    extract_project_from_window (some ("cc-mngr-" ++ "foo")) = some "foo" ∧
    extract_project_from_window (some ("cc-mngr-" ++ "foo" ++ "-7")) = some "foo" ∧
    extract_project_from_window (some "random-window") = none :=
  extract_project_round_trip "foo" (by decide) (by decide)

/-- C10: a window name yields a project key iff it is recognised as a
claude-manager window; every extracted key is a non-empty hyphen-free run of
characters from `[a-zA-Z0-9_]`; a missing or empty name yields `none`/`false`
from both functions. -/
theorem extract_project_iff_manager_window (w : Option String) :
    (is_claude_manager_window w = true ↔
      (extract_project_from_window w).isSome = true) ∧
    (∀ k, extract_project_from_window w = some k →
      k.data ≠ [] ∧ (∀ c ∈ k.data, isWordChar c = true) ∧ '-' ∉ k.data) ∧
    is_claude_manager_window none = false ∧
    extract_project_from_window none = none ∧
    is_claude_manager_window (some "") = false ∧
    extract_project_from_window (some "") = none := by
  refine ⟨?_, ?_, rfl, rfl, by decide, by decide⟩
  · match w with
    | none => simp [is_claude_manager_window, extract_project_from_window]
    | some s =>
      by_cases hs : s = ""
      · subst hs
        simp [is_claude_manager_window, extract_project_from_window]
      · cases hg : ccMngrGroup s.data with
        | none =>
          simp [is_claude_manager_window, extract_project_from_window,
            if_neg hs, hg]
        | some kc =>
          simp [is_claude_manager_window, extract_project_from_window,
            if_neg hs, hg]
  · intro k hk
    match w with
    | none => cases hk
    | some s =>
      by_cases hs : s = ""
      · subst hs; simp [extract_project_from_window] at hk
      · cases hg : ccMngrGroup s.data with
        | none =>
          simp [extract_project_from_window, is_claude_manager_window,
            if_neg hs, hg] at hk
        | some kc =>
          simp only [extract_project_from_window, is_claude_manager_window,
            if_neg hs, hg, Option.isSome_some, Bool.not_true,
            Bool.false_eq_true, if_false, Option.some_inj] at hk
          subst hk
          obtain ⟨hkne, hkw⟩ := ccMngrGroup_some hg
          refine ⟨hkne, hkw, ?_⟩
          intro hm
          have := hkw '-' hm
          exact absurd this (by decide)

/-- Witness for C10 at the concrete window name `cc-mngr-foo2-7`. -/
theorem extract_project_iff_manager_window_witness :
    (is_claude_manager_window (some "cc-mngr-foo2-7") = true ↔
      (extract_project_from_window (some "cc-mngr-foo2-7")).isSome = true) ∧
    ("foo2".data ≠ [] ∧ (∀ c ∈ "foo2".data, isWordChar c = true) ∧
      '-' ∉ "foo2".data) :=
  ⟨(extract_project_iff_manager_window (some "cc-mngr-foo2-7")).1,
   (extract_project_iff_manager_window (some "cc-mngr-foo2-7")).2.1 "foo2"
     (by decide)⟩

/-! ### Unique-name lemmas: `Nat.repr` is injective, the counter loop finds
the least free suffix, and fuel `length + 1` suffices -/

theorem toDigitsCore_eq_digitsList :
    ∀ (f n : Nat) (acc : List Char), n < f →
      Nat.toDigitsCore 10 f n acc = digitsList n ++ acc := by
  intro f
  induction f with
  | zero => intro n acc h; omega
  | succ f ih =>
    intro n acc h
    rw [Nat.toDigitsCore]
    by_cases h10 : n / 10 = 0
    · have hn : n < 10 := by omega
      simp only [h10, if_true]
      rw [digitsList]
      simp [Nat.mod_eq_of_lt hn, dif_pos hn]
    · have hn : ¬ n < 10 := by
        intro hlt
        exact h10 (Nat.div_eq_of_lt hlt)
      simp only [h10, if_false]
      rw [ih (n / 10) _ (by omega)]
      conv_rhs => rw [digitsList]
      rw [dif_neg hn]
      simp

theorem repr_eq_digitsList (n : Nat) : Nat.repr n = (digitsList n).asString := by
  rw [Nat.repr, Nat.toDigits, toDigitsCore_eq_digitsList (n + 1) n [] (by omega)]
  simp

theorem digitChar_val (d : Nat) (h : d < 10) :
    (Nat.digitChar d).toNat - 48 = d := by
  interval_cases d <;> decide

theorem parseDigits_append_one (l : List Char) (c : Char) :
    parseDigits (l ++ [c]) = parseDigits l * 10 + (c.toNat - 48) := by
  simp [parseDigits, List.foldl_append]

theorem parseDigits_digitsList (n : Nat) : parseDigits (digitsList n) = n := by
  induction n using Nat.strong_induction_on with
  | _ n ih =>
    rw [digitsList]
    by_cases h : n < 10
    · simp only [dif_pos h]
      simp [parseDigits, digitChar_val n h]
    · rw [dif_neg h, parseDigits_append_one,
        ih (n / 10) (Nat.div_lt_self (by omega) (by omega)),
        digitChar_val _ (Nat.mod_lt n (by omega))]
      omega

theorem repr_injective : Function.Injective Nat.repr := by
  intro a b h
  rw [repr_eq_digitsList, repr_eq_digitsList] at h
  have hd : digitsList a = digitsList b := by
    have := congrArg String.data h
    simpa [List.asString] using this
  have := congrArg parseDigits hd
  rwa [parseDigits_digitsList, parseDigits_digitsList] at this

theorem string_append_right_cancel {s a b : String} (h : s ++ a = s ++ b) :
    a = b := by
  have h2 := congrArg String.data h
  rw [String.data_append, String.data_append] at h2
  exact String.ext (List.append_cancel_left h2)

theorem candidate_injective (base : String) :
    Function.Injective (fun n => base ++ "-" ++ Nat.repr n) := by
  intro a b h
  simp only [String.append_assoc] at h
  have := string_append_right_cancel h
  have := string_append_right_cancel this
  exact repr_injective this

theorem nextFreeCounter_spec (existing : List String) (base : String) :
    ∀ (f c : Nat),
      (∃ j, c ≤ j ∧ j < c + f ∧ (base ++ "-" ++ Nat.repr j) ∉ existing) →
      (base ++ "-" ++ Nat.repr (nextFreeCounter existing base f c)) ∉ existing ∧
      c ≤ nextFreeCounter existing base f c ∧
      (∀ j, c ≤ j → j < nextFreeCounter existing base f c →
        (base ++ "-" ++ Nat.repr j) ∈ existing) := by
  intro f
  induction f with
  | zero =>
    intro c h
    exact absurd h (by simp; omega)
  | succ f ih =>
    intro c h
    rw [nextFreeCounter]
    by_cases hc : (base ++ "-" ++ Nat.repr c) ∈ existing
    · simp only [hc, if_true]
      have hex : ∃ j, c + 1 ≤ j ∧ j < c + 1 + f ∧
          (base ++ "-" ++ Nat.repr j) ∉ existing := by
        obtain ⟨j, hj1, hj2, hj3⟩ := h
        refine ⟨j, ?_, by omega, hj3⟩
        rcases Nat.eq_or_lt_of_le hj1 with rfl | hlt
        · exact absurd hc hj3
        · omega
      obtain ⟨h1, h2, h3⟩ := ih (c + 1) hex
      refine ⟨h1, by omega, ?_⟩
      intro j hj1 hj2
      rcases Nat.eq_or_lt_of_le hj1 with rfl | hlt
      · exact hc
      · exact h3 j hlt hj2
    · rw [if_neg hc]
      exact ⟨hc, Nat.le_refl c, fun j hj1 hj2 => by omega⟩

theorem exists_free_candidate (existing : List String) (base : String) :
    ∃ j, 1 ≤ j ∧ j < 1 + (existing.length + 1) ∧
      (base ++ "-" ++ Nat.repr j) ∉ existing := by
  by_contra hall
  push_neg at hall
  have hmem : ∀ j ∈ Finset.Icc 1 (existing.length + 1),
      (base ++ "-" ++ Nat.repr j) ∈ existing.toFinset := by
    intro j hj
    rw [Finset.mem_Icc] at hj
    rw [List.mem_toFinset]
    exact hall j hj.1 (by omega)
  have hcard := Finset.card_le_card_of_injOn _ hmem
    (Function.Injective.injOn (candidate_injective base))
  rw [Nat.card_Icc] at hcard
  have := List.toFinset_card_le existing
  omega

/-- C3: with an unreadable window list the base name is returned; otherwise
the returned name is absent from the existing names, is the base name
whenever that is absent, and otherwise is `base-n` for the least `n ≥ 1`
whose name is free. -/
theorem get_unique_window_name_spec (names : List String) (project_key : String) :
    get_unique_window_name none project_key = "cc-mngr-" ++ project_key ∧
    get_unique_window_name (some names) project_key ∉ names ∧
    (("cc-mngr-" ++ project_key) ∉ names →
      get_unique_window_name (some names) project_key =
        "cc-mngr-" ++ project_key) ∧
    (("cc-mngr-" ++ project_key) ∈ names →
      ∃ n, 1 ≤ n ∧
        get_unique_window_name (some names) project_key =
          "cc-mngr-" ++ project_key ++ "-" ++ Nat.repr n ∧
        ("cc-mngr-" ++ project_key ++ "-" ++ Nat.repr n) ∉ names ∧
        (∀ m, 1 ≤ m → m < n →
          ("cc-mngr-" ++ project_key ++ "-" ++ Nat.repr m) ∈ names)) := by
  have hfree := exists_free_candidate names ("cc-mngr-" ++ project_key)
  have hspec := nextFreeCounter_spec names
    ("cc-mngr-" ++ project_key) (names.length + 1) 1 hfree
  obtain ⟨h1, h2, h3⟩ := hspec
  refine ⟨rfl, ?_, ?_, ?_⟩
  · by_cases hb : ("cc-mngr-" ++ project_key) ∈ names
    · simp only [get_unique_window_name, if_neg (not_not_intro hb)]
      exact h1
    · simp only [get_unique_window_name, if_pos hb]
      exact hb
  · intro hb
    simp only [get_unique_window_name, if_pos hb]
  · intro hb
    simp only [get_unique_window_name, if_neg (not_not_intro hb)]
    exact ⟨_, h2, rfl, h1, fun m hm1 hm2 => h3 m hm1 hm2⟩

/-- Witness for C3 at the concrete name list `[cc-mngr-w, cc-mngr-w-1]`. -/
theorem get_unique_window_name_spec_witness :
    get_unique_window_name (some ["cc-mngr-w", "cc-mngr-w-1"]) "w" ∉
      ["cc-mngr-w", "cc-mngr-w-1"] ∧
    get_unique_window_name (some ["other"]) "w" = "cc-mngr-" ++ "w" :=
  ⟨(get_unique_window_name_spec ["cc-mngr-w", "cc-mngr-w-1"] "w").2.1,
    (get_unique_window_name_spec ["other"] "w").2.2.1 (by decide)⟩

/-! ### Safe window creation (C1, C8) -/

/-- C1: `_create_window_safe` reports a window target only when the
post-creation name query at that target succeeded and observed exactly the
requested name; hence an unreachable window or a name mismatch can only
yield `none`, never a partial success. -/
theorem create_window_safe_verified (resp : TmuxResp) (window_name : String)
    (session_target : Option String) (insert_left : Bool) (self_session : String)
    (t : String)
    (h : (_create_window_safe resp window_name session_target insert_left
      self_session).1 = some t) :
    (resp (display_name_argv t)).returncode = 0 ∧
    stripStr (resp (display_name_argv t)).stdout = window_name := by
  simp only [_create_window_safe, apply_ite Prod.fst] at h
  by_cases h1 : (resp (has_session_argv (session_target.getD self_session))).returncode ≠ 0
  · rw [if_pos h1] at h; cases h
  · rw [if_neg h1] at h
    by_cases hil : insert_left = true
    · rw [if_pos hil] at h
      by_cases h2 : (resp (new_window_argv (session_target.getD self_session ++
          ":" ++ Nat.repr 1) window_name)).returncode ≠ 0
      · rw [if_pos h2] at h; cases h
      · rw [if_neg h2] at h
        by_cases h3 : (resp (display_name_argv (session_target.getD self_session ++
            ":" ++ Nat.repr 1))).returncode ≠ 0
        · rw [if_pos h3] at h; cases h
        · rw [if_neg h3] at h
          by_cases h4 : stripStr (resp (display_name_argv
              (session_target.getD self_session ++ ":" ++
                Nat.repr 1))).stdout ≠ window_name
          · rw [if_pos h4] at h; cases h
          · rw [if_neg h4] at h
            cases h
            exact ⟨not_ne_iff.mp h3, not_ne_iff.mp h4⟩
    · rw [if_neg hil] at h
      by_cases h2 : (resp (new_window_argv (session_target.getD self_session ++
          ":" ++ Nat.repr (_find_next_available_index resp
            (session_target.getD self_session) 1001).1) window_name)).returncode ≠ 0
      · rw [if_pos h2] at h; cases h
      · rw [if_neg h2] at h
        by_cases h3 : (resp (display_name_argv (session_target.getD self_session ++
            ":" ++ Nat.repr (_find_next_available_index resp
              (session_target.getD self_session) 1001).1))).returncode ≠ 0
        · rw [if_pos h3] at h; cases h
        · rw [if_neg h3] at h
          by_cases h4 : stripStr (resp (display_name_argv
              (session_target.getD self_session ++ ":" ++
                Nat.repr (_find_next_available_index resp
                  (session_target.getD self_session) 1001).1))).stdout ≠ window_name
          · rw [if_pos h4] at h; cases h
          · rw [if_neg h4] at h
            cases h
            exact ⟨not_ne_iff.mp h3, not_ne_iff.mp h4⟩

/-- Witness for C1: in `envCreateOk` the creation succeeds at index 1001 and
the verified name is the requested `cc-mngr-p`. -/
theorem create_window_safe_verified_witness :
    (_create_window_safe envCreateOk "cc-mngr-p" none false "mngr").1 =
      some ("mngr" ++ ":" ++ Nat.repr 1001) ∧
    (envCreateOk (display_name_argv ("mngr" ++ ":" ++ Nat.repr 1001))).returncode
      = 0 ∧
    stripStr (envCreateOk
      (display_name_argv ("mngr" ++ ":" ++ Nat.repr 1001))).stdout = "cc-mngr-p" :=
  ⟨by decide,
   create_window_safe_verified envCreateOk "cc-mngr-p" none false "mngr"
     ("mngr" ++ ":" ++ Nat.repr 1001) (by decide)⟩

theorem le_foldr_max {l : List Nat} {m : Nat} (h : m ∈ l) :
    m ≤ l.foldr max 0 := by
  induction l with
  | nil => cases h
  | cons a as ih =>
    simp only [List.foldr]
    rcases List.mem_cons.mp h with rfl | hmem
    · exact Nat.le_max_left _ _
    · exact Nat.le_trans (ih hmem) (Nat.le_max_right _ _)

theorem nextFreeIndex_spec (existing : List Nat) :
    ∀ (f c : Nat), (∀ m ∈ existing, m < c + f) →
      nextFreeIndex existing f c ∉ existing ∧
      c ≤ nextFreeIndex existing f c ∧
      (∀ j, c ≤ j → j < nextFreeIndex existing f c → j ∈ existing) := by
  intro f
  induction f with
  | zero =>
    intro c hb
    rw [nextFreeIndex]
    exact ⟨fun hm => absurd (hb c hm) (by omega), Nat.le_refl c,
      fun j h1 h2 => by omega⟩
  | succ f ih =>
    intro c hb
    rw [nextFreeIndex]
    by_cases hc : c ∈ existing
    · simp only [hc, if_true]
      obtain ⟨h1, h2, h3⟩ := ih (c + 1) (fun m hm => by have := hb m hm; omega)
      refine ⟨h1, by omega, ?_⟩
      intro j hj1 hj2
      rcases Nat.eq_or_lt_of_le hj1 with rfl | hlt
      · exact hc
      · exact h3 j hlt hj2
    · rw [if_neg hc]
      exact ⟨hc, Nat.le_refl c, fun j h1 h2 => by omega⟩

theorem find_next_available_index_spec (resp : TmuxResp)
    (session_target : String) (start_index : Nat) :
    (_find_next_available_index resp session_target start_index).1 ∉
      listedIndices resp session_target ∧
    start_index ≤ (_find_next_available_index resp session_target start_index).1 ∧
    (∀ j, start_index ≤ j →
      j < (_find_next_available_index resp session_target start_index).1 →
      j ∈ listedIndices resp session_target) := by
  have hb : ∀ m ∈ listedIndices resp session_target,
      m < start_index + ((listedIndices resp session_target).foldr max 0 + 1) := by
    intro m hm
    have := le_foldr_max hm
    omega
  exact nextFreeIndex_spec (listedIndices resp session_target) _ start_index hb

/-- C8 counterexample, refuting each of the claim's three placement clauses
at concrete inputs: (a) with windows listed at 0 and 1002 (1002 a previously
parked window, 1001 free), right-append creation lands at index 1001, which
is *not* after the last existing window; (b) `insert_left` targets the fixed
index 1, which is *not* an insertion before the current first window — over
the world model, with only window 0 present the new window ends up at
index 1 *after* it, and with index 1 occupied the creation simply fails;
(c) the creation does *not* return the assigned index atomically instead of
a separate list-then-guess step — its print format is the window *id*
`#{window_id}`, not the index, and the index comes from a separate
`list-windows` invocation present in the trace. -/
theorem create_window_safe_placement_counterexample :
    ((_create_window_safe envHighParked "w" none false "mngr").1 =
      some ("mngr" ++ ":" ++ Nat.repr 1001) ∧
     (1002 : Nat) ∈ listedIndices envHighParked "mngr" ∧
     (1001 : Nat) < 1002) ∧
    (_create_window_safeW (World.mk (some ("mngr", 0, [⟨0, "bash", 1⟩])))
        "w" none true "mngr" =
      (some ("mngr" ++ ":" ++ Nat.repr 1),
       World.mk (some ("mngr", 0, [⟨1, "w", 1⟩, ⟨0, "bash", 1⟩]))) ∧
     (0 : Nat) < 1) ∧
    (_create_window_safeW (World.mk (some ("mngr", 0,
        [⟨1, "x", 1⟩, ⟨0, "bash", 1⟩]))) "w" none true "mngr").1 = none ∧
    ("#{window_id}" ∈ new_window_argv ("mngr" ++ ":" ++ Nat.repr 1001) "w" ∧
     "#{window_index}" ∉ new_window_argv ("mngr" ++ ":" ++ Nat.repr 1001) "w" ∧
     list_windows_index_argv "mngr" ∈
       (_create_window_safe envCreateOk "cc-mngr-p" none false "mngr").2) := by
  decide

/-- C8 (amended): `_create_window_safe` creates the window at the fixed
index 1 when `insert_left` is set, and otherwise at the smallest unused
index ≥ 1001 — chosen by a separate `list-windows` scan — which lies after
every existing window whenever all current indices are below 1001; the
`new-window` invocation carries `-P` and `-F` with the format `#{window_id}`
as its final argument, so creation atomically prints the created window's
id. -/
theorem create_window_safe_placement (resp : TmuxResp) (window_name : String)
    (session_target : Option String) (self_session : String) :
    (∀ t, (_create_window_safe resp window_name session_target true
        self_session).1 = some t →
      t = session_target.getD self_session ++ ":" ++ Nat.repr 1) ∧
    (∀ t, (_create_window_safe resp window_name session_target false
        self_session).1 = some t →
      t = session_target.getD self_session ++ ":" ++
        Nat.repr (_find_next_available_index resp
          (session_target.getD self_session) 1001).1) ∧
    (_find_next_available_index resp (session_target.getD self_session) 1001).1 ∉
      listedIndices resp (session_target.getD self_session) ∧
    1001 ≤ (_find_next_available_index resp
      (session_target.getD self_session) 1001).1 ∧
    (∀ j, 1001 ≤ j →
      j < (_find_next_available_index resp (session_target.getD self_session) 1001).1 →
      j ∈ listedIndices resp (session_target.getD self_session)) ∧
    ((∀ m ∈ listedIndices resp (session_target.getD self_session), m < 1001) →
      ∀ m ∈ listedIndices resp (session_target.getD self_session),
        m < (_find_next_available_index resp
          (session_target.getD self_session) 1001).1) ∧
    "-P" ∈ new_window_argv (session_target.getD self_session ++ ":" ++
      Nat.repr (_find_next_available_index resp
        (session_target.getD self_session) 1001).1) window_name ∧
    "-F" ∈ new_window_argv (session_target.getD self_session ++ ":" ++
      Nat.repr (_find_next_available_index resp
        (session_target.getD self_session) 1001).1) window_name ∧
    "#{window_id}" ∈ new_window_argv (session_target.getD self_session ++ ":" ++
      Nat.repr (_find_next_available_index resp
        (session_target.getD self_session) 1001).1) window_name ∧
    (new_window_argv (session_target.getD self_session ++ ":" ++
      Nat.repr (_find_next_available_index resp
        (session_target.getD self_session) 1001).1) window_name).getLast? =
      some "#{window_id}" ∧
    ((resp (has_session_argv (session_target.getD self_session))).returncode
        = 0 →
      list_windows_index_argv (session_target.getD self_session) ∈
        (_create_window_safe resp window_name session_target false
          self_session).2) := by
  obtain ⟨hfree, hge, hmin⟩ := find_next_available_index_spec resp
    (session_target.getD self_session) 1001
  refine ⟨?_, ?_, hfree, hge, hmin, ?_, ?_, ?_, ?_, rfl, ?_⟩
  · intro t h
    simp only [_create_window_safe, apply_ite Prod.fst] at h
    by_cases h1 : (resp (has_session_argv (session_target.getD
        self_session))).returncode ≠ 0
    · rw [if_pos h1] at h; cases h
    · rw [if_neg h1] at h
      simp only [if_true] at h
      by_cases h2 : (resp (new_window_argv (session_target.getD self_session ++
          ":" ++ Nat.repr 1) window_name)).returncode ≠ 0
      · rw [if_pos h2] at h; cases h
      · rw [if_neg h2] at h
        by_cases h3 : (resp (display_name_argv (session_target.getD self_session ++
            ":" ++ Nat.repr 1))).returncode ≠ 0
        · rw [if_pos h3] at h; cases h
        · rw [if_neg h3] at h
          by_cases h4 : stripStr (resp (display_name_argv
              (session_target.getD self_session ++ ":" ++
                Nat.repr 1))).stdout ≠ window_name
          · rw [if_pos h4] at h; cases h
          · rw [if_neg h4] at h
            cases h
            rfl
  · intro t h
    simp only [_create_window_safe, apply_ite Prod.fst] at h
    by_cases h1 : (resp (has_session_argv (session_target.getD
        self_session))).returncode ≠ 0
    · rw [if_pos h1] at h; cases h
    · rw [if_neg h1] at h
      simp only [Bool.false_eq_true, if_false] at h
      by_cases h2 : (resp (new_window_argv (session_target.getD self_session ++
          ":" ++ Nat.repr (_find_next_available_index resp
            (session_target.getD self_session) 1001).1) window_name)).returncode ≠ 0
      · rw [if_pos h2] at h; cases h
      · rw [if_neg h2] at h
        by_cases h3 : (resp (display_name_argv (session_target.getD self_session ++
            ":" ++ Nat.repr (_find_next_available_index resp
              (session_target.getD self_session) 1001).1))).returncode ≠ 0
        · rw [if_pos h3] at h; cases h
        · rw [if_neg h3] at h
          by_cases h4 : stripStr (resp (display_name_argv
              (session_target.getD self_session ++ ":" ++
                Nat.repr (_find_next_available_index resp
                  (session_target.getD self_session) 1001).1))).stdout ≠ window_name
          · rw [if_pos h4] at h; cases h
          · rw [if_neg h4] at h
            cases h
            rfl
  · intro hall m hm
    exact Nat.lt_of_lt_of_le (hall m hm) hge
  · simp [new_window_argv]
  · simp [new_window_argv]
  · simp [new_window_argv]
  · intro hok
    have h1 : ¬ (resp (has_session_argv (session_target.getD
        self_session))).returncode ≠ 0 := not_ne_iff.mpr hok
    have hp2 : (_find_next_available_index resp
        (session_target.getD self_session) 1001).2 =
        [list_windows_index_argv (session_target.getD self_session)] := rfl
    simp only [_create_window_safe, apply_ite Prod.snd, if_neg h1,
      Bool.false_eq_true, if_false]
    by_cases h2 : (resp (new_window_argv (session_target.getD self_session ++
        ":" ++ Nat.repr (_find_next_available_index resp
          (session_target.getD self_session) 1001).1) window_name)).returncode ≠ 0
    · rw [if_pos h2]
      simp [hp2]
    · rw [if_neg h2]
      by_cases h3 : (resp (display_name_argv (session_target.getD self_session ++
          ":" ++ Nat.repr (_find_next_available_index resp
            (session_target.getD self_session) 1001).1))).returncode ≠ 0
      · rw [if_pos h3]
        simp [hp2]
      · rw [if_neg h3]
        by_cases h4 : stripStr (resp (display_name_argv
            (session_target.getD self_session ++ ":" ++
              Nat.repr (_find_next_available_index resp
                (session_target.getD self_session) 1001).1))).stdout ≠ window_name
        · rw [if_pos h4]
          simp [hp2]
        · rw [if_neg h4]
          simp [hp2]

/-- Witness for C8 (amended) in `envCreateOk`: right-append creation lands
at `mngr:1001`, the scanned index, and the trace contains the separate
`list-windows` scan that chose it. -/
theorem create_window_safe_placement_witness :
    ("mngr" ++ ":" ++ Nat.repr 1001 = "mngr" ++ ":" ++
      Nat.repr (_find_next_available_index envCreateOk "mngr" 1001).1) ∧
    list_windows_index_argv "mngr" ∈
      (_create_window_safe envCreateOk "cc-mngr-p" none false "mngr").2 :=
  ⟨(create_window_safe_placement envCreateOk "cc-mngr-p" none "mngr").2.1
      ("mngr" ++ ":" ++ Nat.repr 1001) (by decide),
   (create_window_safe_placement envCreateOk "cc-mngr-p" none
      "mngr").2.2.2.2.2.2.2.2.2.2 (by decide)⟩

/-! ### Rightmost-move candidate scan (C6) -/

theorem moveLoop_all_in_use (resp : TmuxResp) (wt s : String) :
    ∀ l, (∀ i ∈ l, isIndexInUseError (resp (move_window_argv wt s i))) →
      moveLoop resp wt s l = (none, l) := by
  intro l
  induction l with
  | nil => intro _; rfl
  | cons i rest ih =>
    intro hall
    obtain ⟨hne, hsub⟩ := hall i (List.mem_cons_self i rest)
    simp only [moveLoop, if_neg hne, if_pos hsub,
      ih (fun j hj => hall j (List.mem_cons_of_mem _ hj))]

theorem moveLoop_stops (resp : TmuxResp) (wt s : String) :
    ∀ pre (i : Nat) post,
      (∀ j ∈ pre, isIndexInUseError (resp (move_window_argv wt s j))) →
      ((resp (move_window_argv wt s i)).returncode = 0 →
        moveLoop resp wt s (pre ++ i :: post) =
          (some (s ++ ":" ++ Nat.repr i), pre ++ [i])) ∧
      ((resp (move_window_argv wt s i)).returncode ≠ 0 →
        containsSubstr (resp (move_window_argv wt s i)).stderr "index in use"
          = false →
        moveLoop resp wt s (pre ++ i :: post) = (none, pre ++ [i])) := by
  intro pre
  induction pre with
  | nil =>
    intro i post _
    constructor
    · intro hok
      simp only [List.nil_append, moveLoop, if_pos hok]
    · intro hne hsub
      simp only [List.nil_append, moveLoop, if_neg hne, hsub,
        Bool.false_eq_true, if_false]
  | cons j pre' ih =>
    intro i post hall
    obtain ⟨hjne, hjsub⟩ := hall j (List.mem_cons_self j pre')
    obtain ⟨ih1, ih2⟩ := ih i post (fun x hx => hall x (List.mem_cons_of_mem _ hx))
    constructor
    · intro hok
      simp only [List.cons_append, List.append_eq, moveLoop, if_neg hjne,
        if_pos hjsub]
      rw [ih1 hok]
    · intro hne hsub
      simp only [List.cons_append, List.append_eq, moveLoop, if_neg hjne,
        if_pos hjsub]
      rw [ih2 hne hsub]

/-- C6 counterexample: the fixed candidate list of the rightmost-move loop
is the ascending `[999, 1000, 1001, 1002, 1003]`, not a descending list. -/
theorem move_candidates_not_descending_counterexample :
    moveCandidates = [999, 1000, 1001, 1002, 1003] ∧
    ¬ List.Sorted (· ≥ ·) moveCandidates := by
  refine ⟨rfl, ?_⟩
  decide

/-- C6 (amended): both rightmost-move functions try the fixed *ascending*
candidate list `[999, 1000, 1001, 1002, 1003]` in order and stop at the
first index not already in use (so with `{999, 1000, 1001}` in use, 1002 is
selected); an `index in use` failure continues to the next candidate while
any other failure aborts immediately with `none` (no later candidate is
attempted); if every candidate is in use the operation fails. -/
theorem move_window_rightmost_spec (resp : TmuxResp) (wt ss : String) :
    (∀ pre (i : Nat) post, moveCandidates = pre ++ i :: post →
      (∀ j ∈ pre, isIndexInUseError (resp (move_window_argv wt
        (sessionOfTarget wt ss) j))) →
      (resp (move_window_argv wt (sessionOfTarget wt ss) i)).returncode = 0 →
      move_window_to_rightmost_and_get_target resp wt ss =
        (some (sessionOfTarget wt ss ++ ":" ++ Nat.repr i), pre ++ [i])) ∧
    (∀ pre (i : Nat) post, moveCandidates = pre ++ i :: post →
      (∀ j ∈ pre, isIndexInUseError (resp (move_window_argv wt
        (sessionOfTarget wt ss) j))) →
      (resp (move_window_argv wt (sessionOfTarget wt ss) i)).returncode ≠ 0 →
      containsSubstr (resp (move_window_argv wt
        (sessionOfTarget wt ss) i)).stderr "index in use" = false →
      move_window_to_rightmost_and_get_target resp wt ss = (none, pre ++ [i])) ∧
    ((∀ j ∈ moveCandidates, isIndexInUseError (resp (move_window_argv wt
        (sessionOfTarget wt ss) j))) →
      move_window_to_rightmost_and_get_target resp wt ss =
        (none, moveCandidates)) ∧
    ((∀ j ∈ [999, 1000, 1001], isIndexInUseError (resp (move_window_argv wt
        (sessionOfTarget wt ss) j))) →
      (resp (move_window_argv wt (sessionOfTarget wt ss) 1002)).returncode = 0 →
      move_window_to_rightmost_and_get_target resp wt ss =
        (some (sessionOfTarget wt ss ++ ":" ++ Nat.repr 1002),
         [999, 1000, 1001, 1002])) ∧
    move_window_to_rightmost resp wt ss =
      ((move_window_to_rightmost_and_get_target resp wt ss).1.isSome,
       (move_window_to_rightmost_and_get_target resp wt ss).2) := by
  refine ⟨?_, ?_, ?_, ?_, rfl⟩
  · intro pre i post hsplit hall hok
    rw [move_window_to_rightmost_and_get_target, hsplit]
    exact (moveLoop_stops resp wt (sessionOfTarget wt ss) pre i post hall).1 hok
  · intro pre i post hsplit hall hne hsub
    rw [move_window_to_rightmost_and_get_target, hsplit]
    exact (moveLoop_stops resp wt (sessionOfTarget wt ss) pre i post hall).2
      hne hsub
  · intro hall
    rw [move_window_to_rightmost_and_get_target]
    exact moveLoop_all_in_use resp wt (sessionOfTarget wt ss) moveCandidates hall
  · intro hall hok
    rw [move_window_to_rightmost_and_get_target,
      show moveCandidates = [999, 1000, 1001] ++ 1002 :: [1003] from rfl]
    exact (moveLoop_stops resp wt (sessionOfTarget wt ss)
      [999, 1000, 1001] 1002 [1003] hall).1 hok

/-- Witness for C6 (amended) in `envMoveThreeInUse`: 999-1001 are in use, so
the window is parked at `mngr:1002`. -/
theorem move_window_rightmost_spec_witness :
    move_window_to_rightmost_and_get_target envMoveThreeInUse "mngr:1001"
      "mngr" =
      (some (sessionOfTarget "mngr:1001" "mngr" ++ ":" ++ Nat.repr 1002),
       [999, 1000, 1001, 1002]) :=
  (move_window_rightmost_spec envMoveThreeInUse "mngr:1001" "mngr").2.2.2.1
    (by decide) (by decide)

/-! ### Clearing the current window (C5) -/

theorem ne_dot_append (s p : String) (hs : s.data.head? ≠ some '.') :
    s ≠ "." ++ p := by
  intro h
  have h2 := congrArg String.data h
  rw [String.data_append, show (".".data) = ['.'] from rfl] at h2
  rw [h2] at hs
  simp at hs

theorem not_mem_kill_pane_argv {s : String} (hs : s.data.head? ≠ some '.')
    (h1 : s ≠ "tmux") (h2 : s ≠ "kill-pane") (h3 : s ≠ "-t") :
    ∀ p, s ∉ kill_pane_argv p := by
  intro p h
  simp only [kill_pane_argv, List.mem_cons, List.not_mem_nil, or_false] at h
  rcases h with h | h | h | h
  · exact h1 h
  · exact h2 h
  · exact h3 h
  · exact ne_dot_append s p hs h

/-- C5: `clear_current_window` never sends an interrupt keystroke: no issued
command mentions `C-c`, the only `send-keys` command is the clear-screen one
addressed to pane 0, every `kill-pane` command targets a listed pane other
than pane 0, and (when the pane listing succeeded) every listed pane other
than pane 0 is killed and the clear-screen command is sent. -/
theorem clear_current_window_no_interrupt (resp : TmuxResp) :
    (∀ a ∈ (clear_current_window resp).2, "C-c" ∉ a) ∧
    (∀ a ∈ (clear_current_window resp).2, "send-keys" ∈ a →
      a = send_clear_argv) ∧
    (∀ a ∈ (clear_current_window resp).2, "kill-pane" ∈ a →
      ∃ p, a = kill_pane_argv p ∧ p ≠ "0" ∧ p ≠ "") ∧
    ((resp list_panes_argv).returncode = 0 →
      (∀ p ∈ splitStdoutLines (resp list_panes_argv).stdout,
        p ≠ "" → p ≠ "0" → kill_pane_argv p ∈ (clear_current_window resp).2) ∧
      send_clear_argv ∈ (clear_current_window resp).2) := by
  by_cases hrc : (resp list_panes_argv).returncode ≠ 0
  · have hT : (clear_current_window resp).2 = [list_panes_argv] := by
      simp only [clear_current_window, apply_ite Prod.snd, if_pos hrc]
    rw [hT]
    refine ⟨?_, ?_, ?_, ?_⟩
    · intro a ha
      rw [List.mem_singleton] at ha
      subst ha
      decide
    · intro a ha hk
      rw [List.mem_singleton] at ha
      subst ha
      exact absurd hk (by decide)
    · intro a ha hk
      rw [List.mem_singleton] at ha
      subst ha
      exact absurd hk (by decide)
    · intro h0
      exact absurd h0 (by simpa using hrc)
  · have hT : (clear_current_window resp).2 =
        list_panes_argv ::
          ((splitStdoutLines (resp list_panes_argv).stdout).filter
            (fun p => !(p == "") && !(p == "0"))).map kill_pane_argv ++
          [send_clear_argv] := by
      simp only [clear_current_window, apply_ite Prod.snd, if_neg hrc]
    rw [hT]
    have hmem : ∀ a, a ∈ list_panes_argv ::
        ((splitStdoutLines (resp list_panes_argv).stdout).filter
          (fun p => !(p == "") && !(p == "0"))).map kill_pane_argv ++
        [send_clear_argv] →
        a = list_panes_argv ∨ a = send_clear_argv ∨
        ∃ p, a = kill_pane_argv p ∧ p ≠ "0" ∧ p ≠ "" := by
      intro a ha
      rcases List.mem_cons.mp ha with rfl | ha2
      · exact Or.inl rfl
      · rcases List.mem_append.mp ha2 with ha3 | ha4
        · obtain ⟨p, hp, rfl⟩ := List.mem_map.mp ha3
          obtain ⟨_, hpred⟩ := List.mem_filter.mp hp
          simp only [Bool.and_eq_true, Bool.not_eq_true', beq_eq_false_iff_ne]
            at hpred
          exact Or.inr (Or.inr ⟨p, rfl, hpred.2, hpred.1⟩)
        · rw [List.mem_singleton] at ha4
          exact Or.inr (Or.inl ha4)
    refine ⟨?_, ?_, ?_, ?_⟩
    · intro a ha
      rcases hmem a ha with rfl | rfl | ⟨p, rfl, hp0, hpe⟩
      · decide
      · decide
      · exact not_mem_kill_pane_argv (by decide) (by decide) (by decide)
          (by decide) p
    · intro a ha hk
      rcases hmem a ha with rfl | rfl | ⟨p, rfl, hp0, hpe⟩
      · exact absurd hk (by decide)
      · rfl
      · exact absurd hk (not_mem_kill_pane_argv (by decide) (by decide)
          (by decide) (by decide) p)
    · intro a ha hk
      rcases hmem a ha with rfl | rfl | ⟨p, rfl, hp0, hpe⟩
      · exact absurd hk (by decide)
      · exact absurd hk (by decide)
      · exact ⟨p, rfl, hp0, hpe⟩
    · intro _
      constructor
      · intro p hp hpe hp0
        apply List.mem_cons_of_mem
        apply List.mem_append_left
        apply List.mem_map_of_mem
        rw [List.mem_filter]
        refine ⟨hp, ?_⟩
        simp only [Bool.and_eq_true, Bool.not_eq_true', beq_eq_false_iff_ne]
        exact ⟨hpe, hp0⟩
      · apply List.mem_cons_of_mem
        apply List.mem_append_right
        exact List.mem_singleton_self _

/-- Witness for C5 in `envThreePanes`: panes 1 and 2 are killed and only the
clear-screen command goes to pane 0. -/
theorem clear_current_window_no_interrupt_witness :
    kill_pane_argv "1" ∈ (clear_current_window envThreePanes).2 ∧
    kill_pane_argv "2" ∈ (clear_current_window envThreePanes).2 ∧
    send_clear_argv ∈ (clear_current_window envThreePanes).2 ∧
    (∀ a ∈ (clear_current_window envThreePanes).2, "C-c" ∉ a) :=
  ⟨((clear_current_window_no_interrupt envThreePanes).2.2.2 (by decide)).1 "1"
      (by decide) (by decide) (by decide),
   ((clear_current_window_no_interrupt envThreePanes).2.2.2 (by decide)).1 "2"
      (by decide) (by decide) (by decide),
   ((clear_current_window_no_interrupt envThreePanes).2.2.2 (by decide)).2,
   (clear_current_window_no_interrupt envThreePanes).1⟩

/-! ### Scenario-level failure handling (C9) -/

theorem verify_window_ready_bounded (resp : TmuxResp) (wt : String) :
    ∀ n, (_verify_window_ready resp wt n).2.length ≤ n := by
  intro n
  induction n with
  | zero => exact Nat.le_refl 0
  | succ n ih =>
    rw [_verify_window_ready]
    by_cases hc : (resp (display_id_argv wt)).returncode = 0 ∧
        (stripStr (resp (display_id_argv wt)).stdout).data ≠ []
    · rw [if_pos hc]
      simp
    · rw [if_neg hc]
      simpa using Nat.succ_le_succ ih

/-- C9 counterexample: when the project window creation fails (every
`new-window` fails in `envNewWindowFails`), both scenario procedures give up
immediately — the failed `new-window` for `cc-mngr-p` is the *last* command
issued, so no fallback creation attempt of any kind follows it. -/
theorem scenario_no_fallback_counterexample :
    (handle_scenario_1 envNewWindowFails "p" "mngr" "cc" "lg" "tk" "cl").1 =
      none ∧
    (handle_scenario_1 envNewWindowFails "p" "mngr" "cc" "lg" "tk"
      "cl").2.getLast? =
      some (new_window_argv ("mngr" ++ ":" ++ Nat.repr 1001) "cc-mngr-p") ∧
    (handle_scenario_2 envNewWindowFails "p" "mngr" "tk" "cl").1 = none ∧
    (handle_scenario_2 envNewWindowFails "p" "mngr" "tk" "cl").2.getLast? =
      some (new_window_argv ("mngr" ++ ":" ++ Nat.repr 1001) "cc-mngr-p") := by
  decide

/-- C9 (amended): a project-window creation failure makes each scenario
procedure surface failure immediately, with *no* fallback creation attempt —
the scenario trace ends exactly with the failed `create_project_window`
trace — and the only bounded retry at scenario level is the readiness poll
(at most `max_retries` probes). -/
theorem scenario_no_fallback (resp : TmuxResp)
    (pk sn cc lg tk cl : String)
    (hfail : (create_project_window resp pk sn tk cl).1 = none)
    (hsession : (resp (new_session_argv sn)).returncode = 0) :
    handle_scenario_1 resp pk sn cc lg tk cl =
      (none, new_session_argv sn ::
        ((create_ccusage_window resp sn cc).2 ++
         (create_log_window resp sn lg).2 ++
         (create_project_window resp pk sn tk cl).2)) ∧
    handle_scenario_2 resp pk sn tk cl =
      (none, (create_project_window resp pk sn tk cl).2) ∧
    (∀ wt n, (_verify_window_ready resp wt n).2.length ≤ n) := by
  refine ⟨?_, ?_, fun wt n => verify_window_ready_bounded resp wt n⟩
  · simp only [handle_scenario_1, hfail, if_neg (not_ne_iff.mpr hsession)]
  · simp only [handle_scenario_2, hfail]

/-- Witness for C9 (amended) in `envNewWindowFails`. -/
theorem scenario_no_fallback_witness :
    handle_scenario_1 envNewWindowFails "p" "mngr" "cc" "lg" "tk" "cl" =
      (none, new_session_argv "mngr" ::
        ((create_ccusage_window envNewWindowFails "mngr" "cc").2 ++
         (create_log_window envNewWindowFails "mngr" "lg").2 ++
         (create_project_window envNewWindowFails "p" "mngr" "tk" "cl").2)) ∧
    handle_scenario_2 envNewWindowFails "p" "mngr" "tk" "cl" =
      (none, (create_project_window envNewWindowFails "p" "mngr" "tk" "cl").2) :=
  ⟨(scenario_no_fallback envNewWindowFails "p" "mngr" "cc" "lg" "tk" "cl"
      (by decide) (by decide)).1,
   (scenario_no_fallback envNewWindowFails "p" "mngr" "cc" "lg" "tk" "cl"
      (by decide) (by decide)).2.1⟩

/-! ### Scenario 1 end-to-end (C4) -/

theorem word_not_space {c : Char} (h : isWordChar c = true) :
    isSpaceChar c = false := by
  simp only [isWordChar, Bool.or_eq_true, Bool.and_eq_true, decide_eq_true_eq,
    beq_iff_eq] at h
  have hval : 48 ≤ c.toNat := by
    rcases h with ((⟨h1, _⟩ | ⟨h1, _⟩) | ⟨h1, _⟩) | hu
    · have h2 : (97 : Nat) ≤ c.toNat := Char.le_def.mp h1
      omega
    · have h2 : (65 : Nat) ≤ c.toNat := Char.le_def.mp h1
      omega
    · have h2 : (48 : Nat) ≤ c.toNat := Char.le_def.mp h1
      omega
    · subst hu
      decide
  simp only [isSpaceChar, Bool.or_eq_false_iff, Bool.and_eq_false_iff,
    decide_eq_false_iff_not]
  omega

theorem dropWhile_eq_self_of_none {p : Char → Bool} {cs : List Char}
    (h : ∀ c ∈ cs, p c = false) : cs.dropWhile p = cs := by
  cases cs with
  | nil => rfl
  | cons c cs' => simp [List.dropWhile_cons, h c (List.mem_cons_self _ _)]

theorem stripStr_no_space {s : String}
    (h : ∀ c ∈ s.data, isSpaceChar c = false) : stripStr s = s := by
  unfold stripStr
  rw [dropWhile_eq_self_of_none h,
    dropWhile_eq_self_of_none (fun c hc => h c (List.mem_reverse.mp hc)),
    List.reverse_reverse]

theorem strip_project_name (k : String)
    (hk : ∀ c ∈ k.data, isWordChar c = true) :
    stripStr ("cc-mngr-" ++ k) = "cc-mngr-" ++ k := by
  apply stripStr_no_space
  intro c hc
  rw [String.data_append] at hc
  rcases List.mem_append.mp hc with hh | hkc
  · have hhdr : ∀ c ∈ "cc-mngr-".data, isSpaceChar c = false := by decide
    exact hhdr c hh
  · exact word_not_space (hk c hkc)

theorem bash_ne_project (k : String) :
    defaultShellWindowName ≠ "cc-mngr-" ++ k := by
  intro h
  have h2 := congrArg String.data h
  rw [String.data_append,
    show ("cc-mngr-".data) = 'c' :: "c-mngr-".data from rfl,
    show (defaultShellWindowName.data) = 'b' :: "ash".data from rfl] at h2
  injection h2 with h3 h4
  exact absurd h3 (by decide)

/-- C4: from a state with no session, the scenario-1 run with a valid
project key produces a session of exactly 3 windows — the log window, the
usage window and the project window — with the placeholder window gone and
the remaining windows renumbered to 0, 1, 2, and the project window (the
attach target, parked at index 999 before the kill) holding 2 panes. -/
theorem handle_scenario_1_end_to_end (k : String)
    (hk : ∀ c ∈ k.data, isWordChar c = true) :
    handle_scenario_1W (World.mk none) k "mngr" =
      (some ("mngr" ++ ":" ++ Nat.repr 999),
       World.mk (some ("mngr", 0,
         [⟨0, "mngr-log", 1⟩, ⟨1, "ccusage", 1⟩, ⟨2, "cc-mngr-" ++ k, 2⟩]))) ∧
    (handle_scenario_1W (World.mk none) k "mngr").2.windows.length = 3 ∧
    (handle_scenario_1W (World.mk none) k "mngr").2.windows.map
      (fun win => win.name) = ["mngr-log", "ccusage", "cc-mngr-" ++ k] ∧
    defaultShellWindowName ∉ (handle_scenario_1W (World.mk none) k
      "mngr").2.windows.map (fun win => win.name) ∧
    (handle_scenario_1W (World.mk none) k "mngr").2.windows.map
      (fun win => win.index) = [0, 1, 2] ∧
    (∃ win ∈ (handle_scenario_1W (World.mk none) k "mngr").2.windows,
      win.name = "cc-mngr-" ++ k ∧ win.panes = 2) := by
  have hstrip : stripStr ("cc-mngr-" ++ k) = "cc-mngr-" ++ k :=
    strip_project_name k hk
  have hcws : _create_window_safeW
      (World.mk (some ("mngr", 0,
        [⟨1, "mngr-log", 1⟩, ⟨2, "ccusage", 1⟩,
         ⟨0, defaultShellWindowName, 1⟩])))
      ("cc-mngr-" ++ k) none false "mngr" =
      (some ("mngr" ++ ":" ++ Nat.repr 1001),
       World.mk (some ("mngr", 0,
         [⟨1001, "cc-mngr-" ++ k, 1⟩, ⟨1, "mngr-log", 1⟩, ⟨2, "ccusage", 1⟩,
          ⟨0, defaultShellWindowName, 1⟩]))) := by
    show (if stripStr ("cc-mngr-" ++ k) ≠ ("cc-mngr-" ++ k) then
        ((none : Option String),
         World.mk (some ("mngr", 0,
           [⟨1001, "cc-mngr-" ++ k, 1⟩, ⟨1, "mngr-log", 1⟩, ⟨2, "ccusage", 1⟩,
            ⟨0, defaultShellWindowName, 1⟩])))
      else
        (some ("mngr" ++ ":" ++ Nat.repr 1001),
         World.mk (some ("mngr", 0,
           [⟨1001, "cc-mngr-" ++ k, 1⟩, ⟨1, "mngr-log", 1⟩, ⟨2, "ccusage", 1⟩,
            ⟨0, defaultShellWindowName, 1⟩])))) = _
    rw [hstrip, if_neg (fun hcon => hcon rfl)]
  have hcpw : create_project_windowW
      (World.mk (some ("mngr", 0,
        [⟨1, "mngr-log", 1⟩, ⟨2, "ccusage", 1⟩,
         ⟨0, defaultShellWindowName, 1⟩]))) k "mngr" =
      (some ("mngr" ++ ":" ++ Nat.repr 999),
       World.mk (some ("mngr", 0,
         [⟨999, "cc-mngr-" ++ k, 2⟩, ⟨1, "mngr-log", 1⟩, ⟨2, "ccusage", 1⟩,
          ⟨0, defaultShellWindowName, 1⟩]))) := by
    have e1 : create_project_windowW
        (World.mk (some ("mngr", 0,
          [⟨1, "mngr-log", 1⟩, ⟨2, "ccusage", 1⟩,
           ⟨0, defaultShellWindowName, 1⟩]))) k "mngr" =
        (match _create_window_safeW
            (World.mk (some ("mngr", 0,
              [⟨1, "mngr-log", 1⟩, ⟨2, "ccusage", 1⟩,
               ⟨0, defaultShellWindowName, 1⟩])))
            ("cc-mngr-" ++ k) none false "mngr" with
         | (none, w2) => ((none : Option String), w2)
         | (some window_target, w2) =>
           let m := move_window_to_rightmost_and_get_targetW w2 window_target
             "mngr"
           let window_target2 := m.1.getD window_target
           if !(_verify_window_readyW m.2 window_target2 5) then (none, m.2)
           else
             let l := setup_standard_project_layoutW m.2 window_target2
             if !l.1 then (none, l.2) else (some window_target2, l.2)) := rfl
    rw [e1, hcws]
    rfl
  have e2 : handle_scenario_1W (World.mk none) k "mngr" =
      (match (create_project_windowW
          (World.mk (some ("mngr", 0,
            [⟨1, "mngr-log", 1⟩, ⟨2, "ccusage", 1⟩,
             ⟨0, defaultShellWindowName, 1⟩]))) k "mngr").1 with
       | none => ((none : Option String),
          (create_project_windowW
            (World.mk (some ("mngr", 0,
              [⟨1, "mngr-log", 1⟩, ⟨2, "ccusage", 1⟩,
               ⟨0, defaultShellWindowName, 1⟩]))) k "mngr").2)
       | some t => (some t,
          (wkill_window (create_project_windowW
            (World.mk (some ("mngr", 0,
              [⟨1, "mngr-log", 1⟩, ⟨2, "ccusage", 1⟩,
               ⟨0, defaultShellWindowName, 1⟩]))) k "mngr").2 "mngr" 0).getD
            (create_project_windowW
              (World.mk (some ("mngr", 0,
                [⟨1, "mngr-log", 1⟩, ⟨2, "ccusage", 1⟩,
                 ⟨0, defaultShellWindowName, 1⟩]))) k "mngr").2)) := rfl
  have hrun : handle_scenario_1W (World.mk none) k "mngr" =
      (some ("mngr" ++ ":" ++ Nat.repr 999),
       World.mk (some ("mngr", 0,
         [⟨0, "mngr-log", 1⟩, ⟨1, "ccusage", 1⟩,
          ⟨2, "cc-mngr-" ++ k, 2⟩]))) := by
    rw [e2, hcpw]
    rfl
  refine ⟨hrun, ?_, ?_, ?_, ?_, ?_⟩
  · rw [hrun]; rfl
  · rw [hrun]; rfl
  · rw [hrun]
    intro hmem
    simp only [World.windows, List.map_cons, List.map_nil, List.mem_cons,
      List.not_mem_nil, or_false] at hmem
    rcases hmem with h | h | h
    · exact absurd h (by decide)
    · exact absurd h (by decide)
    · exact bash_ne_project k h
  · rw [hrun]; rfl
  · rw [hrun]
    exact ⟨⟨2, "cc-mngr-" ++ k, 2⟩, by simp [World.windows], rfl, rfl⟩

/-- Witness for C4 at the concrete project key `p`. -/
theorem handle_scenario_1_end_to_end_witness :
    handle_scenario_1W (World.mk none) "p" "mngr" =
      (some ("mngr" ++ ":" ++ Nat.repr 999),
       World.mk (some ("mngr", 0,
         [⟨0, "mngr-log", 1⟩, ⟨1, "ccusage", 1⟩, ⟨2, "cc-mngr-" ++ "p", 2⟩]))) ∧
    (handle_scenario_1W (World.mk none) "p" "mngr").2.windows.length = 3 :=
  ⟨(handle_scenario_1_end_to_end "p" (by decide)).1,
   (handle_scenario_1_end_to_end "p" (by decide)).2.1⟩
